import Mathlib

/-!
Verification of the scheduled/retryable job dispatch subsystem of the
AI-Token-Launchpad Django backend, shallowly embedded in Lean.

The embedding covers, faithfully to the Python source:
* `social_media/models.py` — the `SocialMediaPost` and `SocialMediaSchedule`
  rows (fields the tasks touch) and the `engagement_rate` property;
* `social_media/tasks.py` — `post_to_social_media` (one Celery execution),
  `process_scheduled_posts`, `cleanup_failed_posts`, and the
  `POST_PUBLISHED` branch of `process_social_webhooks`;
* `ai_agents/tasks.py` — `generate_ai_content` (one Celery execution) and
  `cleanup_ai_interactions`;
* `ai_agents/services.py` — `AIService._record_interaction`.

Wall-clock times are integers (seconds since epoch); `timedelta(days=d)`
is `d * 86400` seconds and `timedelta(minutes=m)` is `m * 60` seconds.
Numeric metric fields are exact rationals; the Python source uses floats,
and exact arithmetic is the reading the specification's formulas take.
Celery's retry bookkeeping (`self.request.retries`, `max_retries`, the
`MaxRetriesExceededError` raised once `retries + 1 > max_retries`) is made
explicit: one handler execution takes the current `retries` counter and
either finishes, requests redelivery with a countdown, or raises.
-/

namespace AILaunchPad

/-- Lifecycle states of a `SocialMediaPost` (`STATUS_CHOICES` in
`social_media/models.py`). -/
inductive PostStatus where
  | DRAFT
  | SCHEDULED
  | IN_PROGRESS
  | PUBLISHED
  | FAILED
  deriving DecidableEq, Repr

/-- The fields of a `SocialMediaPost` row that the tasks read or write.
`metrics` is the JSON metrics dictionary, modelled as an association list
from key to integer value (a Python dict has no duplicate keys). -/
structure SocialMediaPost where
  id : Nat
  platform : String
  content : String
  media_urls : List String
  status : PostStatus
  platform_post_id : Option String
  platform_url : Option String
  published_at : Option Int
  error_message : String
  metrics : List (String × Int)
  created_at : Int
  deriving DecidableEq, Repr

/-- Result dictionary returned by `social_media_service.post_content`. -/
structure PostResult where
  post_id : String
  url : String
  deriving DecidableEq, Repr

/-- Outcome of one call to the external posting adapter: either the result
dictionary, or the raised exception's message `str(e)`. -/
inductive AdapterOutcome where
  | success (r : PostResult)
  | failure (err : String)
  deriving DecidableEq, Repr

/-- Observable effect of one Celery execution of a task handler on its
record and on the queue. `retryCountdown = some d` means the handler called
`self.retry(countdown = d)` and Celery accepted the redelivery;
`raisedMaxRetries` means `self.retry` raised `MaxRetriesExceededError`
instead (no redelivery). -/
structure AttemptEffect where
  post : SocialMediaPost
  adapterCalled : Bool
  retryCountdown : Option Nat
  raisedMaxRetries : Bool
  deriving DecidableEq, Repr

/-- One Celery execution of `post_to_social_media` (social_media/tasks.py,
lines 20–56).  `retries` is `self.request.retries` for this execution
(0 on the first delivery), `max_retries` the task's ceiling (3 in the
decorator), `now` the value of `timezone.now()`.

The body calls the adapter unconditionally (there is no status check), and
on success overwrites `platform_post_id`, `platform_url`, `status` and
`published_at`.  On any exception it sets `status = FAILED` and
`error_message = str(e)`, saves, and then calls
`self.retry(countdown = 60 * 2 ** retries)`; Celery redelivers if
`retries + 1 ≤ max_retries` and raises `MaxRetriesExceededError`
otherwise. -/
def post_to_social_media (post : SocialMediaPost) (outcome : AdapterOutcome)
    (retries max_retries : Nat) (now : Int) : AttemptEffect :=
  match outcome with
  | AdapterOutcome.success r =>
      { post := { post with
          platform_post_id := some r.post_id
          platform_url := some r.url
          status := PostStatus.PUBLISHED
          published_at := some now }
        adapterCalled := true
        retryCountdown := none
        raisedMaxRetries := false }
  | AdapterOutcome.failure e =>
      let post := { post with
          status := PostStatus.FAILED
          error_message := e }
      if retries + 1 ≤ max_retries then
        { post := post
          adapterCalled := true
          retryCountdown := some (60 * 2 ^ retries)
          raisedMaxRetries := false }
      else
        { post := post
          adapterCalled := true
          retryCountdown := none
          raisedMaxRetries := true }

/-- Outcome of one call to the AI content-generation service. -/
inductive GenOutcome where
  | success (content : String)
  | failure (err : String)
  deriving DecidableEq, Repr

/-- Observable effect of one Celery execution of `generate_ai_content`. -/
structure GenAttemptEffect where
  result : Option String
  retryCountdown : Option Nat
  raisedMaxRetries : Bool
  deriving DecidableEq, Repr

/-- One Celery execution of `generate_ai_content` (ai_agents/tasks.py,
lines 18–48): on success return the generated content; on any exception
call `self.retry(countdown = 60 * 2 ** retries)` with the same Celery
bookkeeping as `post_to_social_media` (decorator `max_retries = 3`).
The failure path mutates no record. -/
def generate_ai_content (outcome : GenOutcome) (retries max_retries : Nat) :
    GenAttemptEffect :=
  match outcome with
  | GenOutcome.success c =>
      { result := some c, retryCountdown := none, raisedMaxRetries := false }
  | GenOutcome.failure _ =>
      if retries + 1 ≤ max_retries then
        { result := none
          retryCountdown := some (60 * 2 ^ retries)
          raisedMaxRetries := false }
      else
        { result := none, retryCountdown := none, raisedMaxRetries := true }

/-- The `POST_PUBLISHED` branch of `process_social_webhooks`
(social_media/tasks.py, lines 466–474), applied to the post whose
`platform_post_id` matched the webhook's `data["post_id"]`: it sets
`status = "PUBLISHED"` and `published_at = timezone.now()` with no check of
the post's current status. -/
def webhook_post_published (post : SocialMediaPost) (now : Int) : SocialMediaPost :=
  { post with
      status := PostStatus.PUBLISHED
      published_at := some now }

/-- The chain of executions Celery drives for one `post_to_social_media`
task: execution at counter `retries` runs the handler; if it requests
redelivery, the next execution runs with counter `retries + 1`.  `outcomes
k` is the adapter outcome seen by the execution whose counter is `k`.
Returns the final record together with the number of executions performed.
The fuel argument only bounds the recursion; `max_retries + 1` always
suffices because each redelivery strictly increases the counter and Celery
refuses once `retries + 1 > max_retries`. -/
def celeryRunAux (outcomes : Nat → AdapterOutcome) (max_retries : Nat) (now : Int) :
    SocialMediaPost → Nat → Nat → SocialMediaPost × Nat
  | post, _, 0 => (post, 0)
  | post, retries, fuel + 1 =>
      let eff := post_to_social_media post (outcomes retries) retries max_retries now
      match eff.retryCountdown with
      | none => (eff.post, 1)
      | some _ =>
          let rest := celeryRunAux outcomes max_retries now eff.post (retries + 1) fuel
          (rest.1, rest.2 + 1)

/-- Full delivery-and-retry run of `post_to_social_media` starting from the
first delivery (counter 0). -/
def celeryRun (post : SocialMediaPost) (outcomes : Nat → AdapterOutcome)
    (max_retries : Nat) (now : Int) : SocialMediaPost × Nat :=
  celeryRunAux outcomes max_retries now post 0 (max_retries + 1)

/-- The fields of a `SocialMediaSchedule` row (social_media/models.py,
lines 220–252) that `process_scheduled_posts` reads or writes, together
with its one-to-one bound post. -/
structure SocialMediaSchedule where
  id : Nat
  post : SocialMediaPost
  scheduled_time : Int
  is_processed : Bool
  processed_at : Option Int
  retry_count : Nat
  max_retries : Nat
  next_retry : Option Int
  error_message : String
  deriving DecidableEq, Repr

/-- Selection predicate of the sweeper's query
(`scheduled_time__lte=timezone.now(), is_processed=False`). -/
def scheduleDue (now : Int) (s : SocialMediaSchedule) : Bool :=
  decide (s.scheduled_time ≤ now) && !s.is_processed

/-- The per-entry body of `process_scheduled_posts` (social_media/tasks.py,
lines 70–102) for one due schedule.  `outcome = none` means the submission
`post_to_social_media.delay(...)` succeeded; `outcome = some e` means it
raised an exception with message `str(e) = e`.  On success the entry is
flagged processed; on failure with `retry_count < max_retries` the counter
is incremented and `next_retry` set to `now + timedelta(minutes = 5 *
retry_count)` (with the already incremented counter), i.e. `now + 300 *
(retry_count + 1)` seconds; on exhaustion the entry is flagged processed
with the error message and the bound post is marked `FAILED`.  Returns the
updated entry and the entry's contribution to `processed_count`. -/
def processScheduleStep (now : Int) (s : SocialMediaSchedule)
    (outcome : Option String) : SocialMediaSchedule × Nat :=
  match outcome with
  | none =>
      ({ s with is_processed := true, processed_at := some now }, 1)
  | some e =>
      if s.retry_count < s.max_retries then
        ({ s with
            retry_count := s.retry_count + 1
            next_retry := some (now + 300 * (s.retry_count + 1)) }, 0)
      else
        ({ s with
            is_processed := true
            processed_at := some now
            error_message := e
            post := { s.post with
                status := PostStatus.FAILED
                error_message := "Max retries exceeded: " ++ e } }, 0)

/-- One run of `process_scheduled_posts` (social_media/tasks.py, lines
59–109) over the table of schedules: entries matching the due query get the
per-entry body applied (with `outcome s.id` the fate of that entry's
submission); all other entries are untouched.  Returns the updated table
and the run's `processed_count` return value. -/
def process_scheduled_posts (schedules : List SocialMediaSchedule)
    (outcome : Nat → Option String) (now : Int) :
    List SocialMediaSchedule × Nat :=
  match schedules with
  | [] => ([], 0)
  | s :: rest =>
      let tail := process_scheduled_posts rest outcome now
      if scheduleDue now s then
        let r := processScheduleStep now s (outcome s.id)
        (r.1 :: tail.1, r.2 + tail.2)
      else
        (s :: tail.1, tail.2)

/-- Dictionary read `metrics.get(key, 0)`. -/
def metricsGet (m : List (String × Int)) (k : String) : Int :=
  (m.lookup k).getD 0

/-- The `engagement_rate` property of `SocialMediaPost`
(social_media/models.py, lines 186–217): returns 0 when the metrics dict is
empty or has no `"impressions"` key or `impressions == 0`; otherwise sums
the platform's engagement keys and returns `engagement / impressions * 100`
(and 0 again if `impressions` is not positive). -/
def engagement_rate (post : SocialMediaPost) : Rat :=
  if post.metrics = [] ∨ post.metrics.lookup "impressions" = none then 0
  else
    let impressions := metricsGet post.metrics "impressions"
    if impressions = 0 then 0
    else
      let engagement : Int :=
        if post.platform = "TWITTER" then
          metricsGet post.metrics "likes" + metricsGet post.metrics "retweets"
            + metricsGet post.metrics "replies" + metricsGet post.metrics "quotes"
        else if post.platform = "LINKEDIN" then
          metricsGet post.metrics "likes" + metricsGet post.metrics "comments"
            + metricsGet post.metrics "shares"
        else
          ((post.metrics.filter (fun kv =>
              kv.1 == "likes" || kv.1 == "comments"
                || kv.1 == "shares" || kv.1 == "reactions")).map
            (fun kv => kv.2)).sum
      if impressions > 0 then (engagement : Rat) / (impressions : Rat) * 100 else 0

/-- Aggregate-metric fields of an `AIAgent` row touched by
`_record_interaction`. -/
structure AIAgent where
  total_interactions : Nat
  average_response_time : Rat
  success_rate : Rat
  last_active : Int
  deriving DecidableEq, Repr

/-- An `AIInteraction` row (the fields the tasks and metrics code read). -/
structure AIInteraction where
  response_time : Rat
  is_successful : Bool
  created_at : Int
  deriving DecidableEq, Repr

/-- `AIService._record_interaction` (ai_agents/services.py, lines 244–297):
creates the interaction row, increments `agent.total_interactions`, and —
only when `is_successful` — updates the running average response time
(special case: when the stored average is 0 it is set to the sample
directly, otherwise `(avg * (total - 1) + sample) / total` with the already
incremented total) and the success rate (`count of successful interactions
of the agent / total_interactions * 100`, the count taken over all stored
interactions including the new one).  `last_active` is set in all cases.
`interactions` is the agent's stored interaction history. -/
def record_interaction (agent : AIAgent) (interactions : List AIInteraction)
    (response_time : Rat) (is_successful : Bool) (now : Int) :
    AIAgent × List AIInteraction :=
  let interactions2 := interactions ++ [⟨response_time, is_successful, now⟩]
  let agent1 := { agent with total_interactions := agent.total_interactions + 1 }
  let agent2 :=
    if is_successful then
      let avg :=
        if agent1.average_response_time = 0 then response_time
        else
          (agent1.average_response_time * ((agent1.total_interactions : Rat) - 1)
              + response_time) / (agent1.total_interactions : Rat)
      let successful := (interactions2.filter (fun i => i.is_successful)).length
      { agent1 with
          average_response_time := avg
          success_rate := ((successful : Rat) / (agent1.total_interactions : Rat)) * 100 }
    else agent1
  ({ agent2 with last_active := now }, interactions2)

/-- Deletion predicate of the first bulk delete in `cleanup_failed_posts`
(social_media/tasks.py, lines 419–427): `status="FAILED"` and
`created_at < now - timedelta(days=30)`. -/
def failedPostExpired (now : Int) (p : SocialMediaPost) : Bool :=
  decide (p.status = PostStatus.FAILED) && decide (p.created_at < now - 30 * 86400)

/-- Deletion predicate of the second bulk delete in `cleanup_failed_posts`
(social_media/tasks.py, lines 429–435): `is_processed=True` and
`processed_at < now - timedelta(days=7)` (a null `processed_at` never
matches a `__lt` lookup). -/
def processedScheduleExpired (now : Int) (s : SocialMediaSchedule) : Bool :=
  s.is_processed &&
    (match s.processed_at with
     | some t => decide (t < now - 7 * 86400)
     | none => false)

/-- The retention sweeper `cleanup_failed_posts` (social_media/tasks.py,
lines 415–447): bulk-deletes expired failed posts and expired processed
schedules, returning the surviving tables and the two counts it reports. -/
def cleanup_failed_posts (posts : List SocialMediaPost)
    (schedules : List SocialMediaSchedule) (now : Int) :
    List SocialMediaPost × List SocialMediaSchedule × Nat × Nat :=
  (posts.filter (fun p => !(failedPostExpired now p)),
   schedules.filter (fun s => !(processedScheduleExpired now s)),
   (posts.filter (failedPostExpired now)).length,
   (schedules.filter (processedScheduleExpired now)).length)

/-- Deletion predicate of `cleanup_ai_interactions` (ai_agents/tasks.py,
lines 386–403): `created_at < now - timedelta(days=90)`, with no condition
on any other field. -/
def interactionExpired (now : Int) (i : AIInteraction) : Bool :=
  decide (i.created_at < now - 90 * 86400)

/-- The retention sweeper `cleanup_ai_interactions` (ai_agents/tasks.py,
lines 386–403): bulk-deletes interactions older than 90 days and returns
the surviving table and the count it reports. -/
def cleanup_ai_interactions (interactions : List AIInteraction) (now : Int) :
    List AIInteraction × Nat :=
  (interactions.filter (fun i => !(interactionExpired now i)),
   (interactions.filter (interactionExpired now)).length)

/-- Concrete post used to instantiate theorems. -/
def samplePost : SocialMediaPost :=
  { id := 1
    platform := "TWITTER"
    content := "hello"
    media_urls := []
    status := PostStatus.SCHEDULED
    platform_post_id := none
    platform_url := none
    published_at := none
    error_message := ""
    metrics := []
    created_at := 0 }

/-- Concrete schedule entry that is due and unprocessed at time 1000. -/
def dueSchedule : SocialMediaSchedule :=
  { id := 10
    post := samplePost
    scheduled_time := 500
    is_processed := false
    processed_at := none
    retry_count := 0
    max_retries := 3
    next_retry := none
    error_message := "" }

/-- Concrete schedule entry already processed at time 1000. -/
def processedSchedule : SocialMediaSchedule :=
  { id := 11
    post := samplePost
    scheduled_time := 100
    is_processed := true
    processed_at := some 400
    retry_count := 0
    max_retries := 3
    next_retry := none
    error_message := "" }

/-- Concrete schedule entry not yet due at time 1000. -/
def futureSchedule : SocialMediaSchedule :=
  { id := 12
    post := samplePost
    scheduled_time := 2000
    is_processed := false
    processed_at := none
    retry_count := 0
    max_retries := 3
    next_retry := none
    error_message := "" }

/-- Concrete Twitter post matching the specification's engagement example:
impressions 1000, likes 50, retweets 10, replies 5, quotes 3. -/
def twitterMetricsPost : SocialMediaPost :=
  { samplePost with
      status := PostStatus.PUBLISHED
      metrics := [("impressions", 1000), ("likes", 50), ("retweets", 10),
                  ("replies", 5), ("quotes", 3)] }

/-- Concrete schedule entry that is due at time 1000 with its retries
already used up (`retry_count = max_retries = 3`). -/
def exhaustedSchedule : SocialMediaSchedule :=
  { id := 13
    post := samplePost
    scheduled_time := 500
    is_processed := false
    processed_at := none
    retry_count := 3
    max_retries := 3
    next_retry := some 700
    error_message := "" }

end AILaunchPad

namespace AILaunchPad

/-- C1: for every failed attempt `n` (0-indexed) of `generate_ai_content` or
`post_to_social_media`, any redelivery the handler obtains from the queue
has countdown exactly `60 * 2 ^ n` seconds; in particular a failure on
attempt 0 requests a 60-second countdown and a failure on attempt 2 a
240-second countdown (with the decorator's `max_retries = 3`). -/
theorem backoff_delay_is_60_times_2_pow_attempt
    (p : SocialMediaPost) (e : String) (n m : Nat) (now : Int) (d : Nat)
    (hpost : (post_to_social_media p (AdapterOutcome.failure e) n m now).retryCountdown = some d) :
    d = 60 * 2 ^ n ∧
    (∀ d2 : Nat, (generate_ai_content (GenOutcome.failure e) n m).retryCountdown = some d2 →
      d2 = 60 * 2 ^ n) ∧
    (post_to_social_media p (AdapterOutcome.failure e) 0 3 now).retryCountdown = some 60 ∧
    (post_to_social_media p (AdapterOutcome.failure e) 2 3 now).retryCountdown = some 240 ∧
    (generate_ai_content (GenOutcome.failure e) 0 3).retryCountdown = some 60 ∧
    (generate_ai_content (GenOutcome.failure e) 2 3).retryCountdown = some 240 := by
  refine ⟨?_, ?_, ?_, ?_, ?_, ?_⟩
  · by_cases h : n + 1 ≤ m
    · simp [post_to_social_media, h] at hpost
      omega
    · simp [post_to_social_media, h] at hpost
  · intro d2 hgen
    by_cases h : n + 1 ≤ m
    · simp [generate_ai_content, h] at hgen
      omega
    · simp [generate_ai_content, h] at hgen
  · simp [post_to_social_media]
  · simp [post_to_social_media]
  · simp [generate_ai_content]
  · simp [generate_ai_content]

/-- C1 witness: the theorem applied at attempt 2, max 3, with the concrete
post, where the requested countdown is 240 seconds. -/
theorem backoff_delay_is_60_times_2_pow_attempt_witness :
    (240 : Nat) = 60 * 2 ^ 2 ∧
    (post_to_social_media samplePost (AdapterOutcome.failure "boom") 0 3 0).retryCountdown = some 60 := by
  have h := backoff_delay_is_60_times_2_pow_attempt samplePost "boom" 2 3 0 240
    (by simp [post_to_social_media, samplePost])
  exact ⟨h.1, h.2.2.1⟩

/-- C2 counterexample: a `SCHEDULED` post whose first delivery fails is
written `FAILED`, and the redelivered (retried) invocation then succeeds and
writes `PUBLISHED`: the record moves out of the terminal state `FAILED`,
contradicting the claim that no operation ever does so (the `POST_PUBLISHED`
webhook branch does the same). -/
theorem status_leaves_failed_counterexample :
    (post_to_social_media samplePost (AdapterOutcome.failure "rate limit") 0 3 100).post.status
      = PostStatus.FAILED ∧
    (post_to_social_media
        (post_to_social_media samplePost (AdapterOutcome.failure "rate limit") 0 3 100).post
        (AdapterOutcome.success { post_id := "t1", url := "u1" }) 1 3 200).post.status
      = PostStatus.PUBLISHED ∧
    (webhook_post_published
        (post_to_social_media samplePost (AdapterOutcome.failure "rate limit") 0 3 100).post
        300).status = PostStatus.PUBLISHED := by
  refine ⟨?_, ?_, ?_⟩ <;> rfl

/-- C2 amended: every execution of `post_to_social_media` writes
`PUBLISHED` on adapter success and `FAILED` on adapter failure regardless of
the record's prior status, and the `POST_PUBLISHED` webhook writes
`PUBLISHED` regardless of prior status; consequently `FAILED` is not
terminal — a record marked `FAILED` by a non-final failed attempt moves back
to `PUBLISHED` when a later retry succeeds or a matching webhook arrives. -/
theorem status_written_unconditionally
    (p : SocialMediaPost) (r : PostResult) (e : String) (n m : Nat) (now : Int) :
    (post_to_social_media p (AdapterOutcome.success r) n m now).post.status
      = PostStatus.PUBLISHED ∧
    (post_to_social_media p (AdapterOutcome.failure e) n m now).post.status
      = PostStatus.FAILED ∧
    (webhook_post_published p now).status = PostStatus.PUBLISHED := by
  refine ⟨rfl, ?_, rfl⟩
  by_cases h : n + 1 ≤ m <;> simp [post_to_social_media, h]

/-- C3 counterexample: on the very first failed attempt (attempt 0, below
`max_retries = 3`) the handler requests redelivery, yet it has already
written the terminal status `FAILED` and the error message to the record —
the status is not left as it was (`SCHEDULED`) nor set to `IN_PROGRESS`. -/
theorem nonfinal_failure_writes_failed_counterexample :
    (post_to_social_media samplePost (AdapterOutcome.failure "boom") 0 3 100).retryCountdown
      = some 60 ∧
    (post_to_social_media samplePost (AdapterOutcome.failure "boom") 0 3 100).post.status
      = PostStatus.FAILED ∧
    (post_to_social_media samplePost (AdapterOutcome.failure "boom") 0 3 100).post.error_message
      = "boom" ∧
    samplePost.status = PostStatus.SCHEDULED ∧
    (post_to_social_media samplePost (AdapterOutcome.failure "boom") 0 3 100).post.status
      ≠ samplePost.status := by
  refine ⟨rfl, rfl, rfl, rfl, ?_⟩
  simp [post_to_social_media, samplePost]

/-- C3 amended: when an attempt `n` of `post_to_social_media` fails and
`n + 1 ≤ max_retries`, the handler first writes `status = FAILED` and
`error_message = str(e)` to the record and then requests redelivery with
countdown `60 * 2 ^ n`; it does not leave the status unchanged. -/
theorem nonfinal_failure_effect
    (p : SocialMediaPost) (e : String) (n m : Nat) (now : Int)
    (h : n + 1 ≤ m) :
    (post_to_social_media p (AdapterOutcome.failure e) n m now).retryCountdown
      = some (60 * 2 ^ n) ∧
    (post_to_social_media p (AdapterOutcome.failure e) n m now).post.status
      = PostStatus.FAILED ∧
    (post_to_social_media p (AdapterOutcome.failure e) n m now).post.error_message = e := by
  refine ⟨?_, ?_, ?_⟩ <;> simp [post_to_social_media, h]

/-- C3 witness: the amended theorem applied at attempt 1 of 3 with a
concrete post and error. -/
theorem nonfinal_failure_effect_witness :
    (1 : Nat) + 1 ≤ 3 ∧
    (post_to_social_media samplePost (AdapterOutcome.failure "timeout") 1 3 7).retryCountdown
      = some (60 * 2 ^ 1) := by
  exact ⟨by decide, (nonfinal_failure_effect samplePost "timeout" 1 3 7 (by decide)).1⟩

/-- C4: with `max_retries = 3` and every attempt failing with message `e ≠ ""`,
the run performs exactly 4 executions (attempts 0–3, no 5th), ends with
`status = FAILED` and the non-empty `error_message = e`; any execution that
obtains a redelivery has counter `n` with `n + 1 ≤ 3`, so the Celery retries
counter never exceeds `max_retries`; the execution at counter 3 is refused
redelivery (`MaxRetriesExceededError`); and a schedule entry whose
`retry_count ≤ max_retries` keeps `retry_count ≤ max_retries` across the
sweeper's per-entry body. -/
theorem exhausted_retries_end_failed
    (p : SocialMediaPost) (e : String) (now : Int) (he : e ≠ "") :
    (celeryRun p (fun _ => AdapterOutcome.failure e) 3 now).1.status = PostStatus.FAILED ∧
    (celeryRun p (fun _ => AdapterOutcome.failure e) 3 now).1.error_message = e ∧
    (celeryRun p (fun _ => AdapterOutcome.failure e) 3 now).1.error_message ≠ "" ∧
    (celeryRun p (fun _ => AdapterOutcome.failure e) 3 now).2 = 4 ∧
    (∀ (q : SocialMediaPost) (o : AdapterOutcome) (n : Nat),
      (post_to_social_media q o n 3 now).retryCountdown.isSome → n + 1 ≤ 3) ∧
    (post_to_social_media p (AdapterOutcome.failure e) 3 3 now).retryCountdown = none ∧
    (post_to_social_media p (AdapterOutcome.failure e) 3 3 now).raisedMaxRetries = true ∧
    (∀ (s : SocialMediaSchedule) (o : Option String) (t : Int),
      s.retry_count ≤ s.max_retries →
        (processScheduleStep t s o).1.retry_count ≤ s.max_retries) := by
  refine ⟨?_, ?_, ?_, ?_, ?_, ?_, ?_, ?_⟩
  · simp [celeryRun, celeryRunAux, post_to_social_media]
  · simp [celeryRun, celeryRunAux, post_to_social_media]
  · simpa [celeryRun, celeryRunAux, post_to_social_media] using he
  · simp [celeryRun, celeryRunAux, post_to_social_media]
  · intro q o n hsome
    match o with
    | AdapterOutcome.success r =>
        simp [post_to_social_media] at hsome
    | AdapterOutcome.failure e2 =>
        by_cases h : n + 1 ≤ 3
        · exact h
        · simp [post_to_social_media, h] at hsome
  · simp [post_to_social_media]
  · simp [post_to_social_media]
  · intro s o t hle
    match o with
    | none => simpa [processScheduleStep] using hle
    | some e2 =>
        by_cases h : s.retry_count < s.max_retries
        · simp [processScheduleStep, h]
          omega
        · simpa [processScheduleStep, h] using hle

/-- C4 witness: the theorem applied to the concrete post with error
"network down". -/
theorem exhausted_retries_end_failed_witness :
    "network down" ≠ "" ∧
    (celeryRun samplePost (fun _ => AdapterOutcome.failure "network down") 3 0).2 = 4 := by
  exact ⟨by decide,
    (exhausted_retries_end_failed samplePost "network down" 0 (by decide)).2.2.2.1⟩

/-- C5 evaluation: re-delivering `post_to_social_media` for a record whose
status is already `PUBLISHED` is not a no-op — the handler has no terminal-
state check, so the adapter is called again and the record's result fields
are overwritten (and a failing re-delivery even overwrites the status to
`FAILED`).  The claim — the specification's stated idempotence requirement —
describes behaviour the code does not implement. -/
theorem republish_not_detected :
    (post_to_social_media
        { samplePost with
            status := PostStatus.PUBLISHED
            platform_post_id := some "orig"
            platform_url := some "origurl"
            published_at := some 10 }
        (AdapterOutcome.success { post_id := "dup", url := "dupurl" }) 0 3 999).adapterCalled
      = true ∧
    (post_to_social_media
        { samplePost with
            status := PostStatus.PUBLISHED
            platform_post_id := some "orig"
            platform_url := some "origurl"
            published_at := some 10 }
        (AdapterOutcome.success { post_id := "dup", url := "dupurl" }) 0 3 999).post.platform_post_id
      = some "dup" ∧
    (post_to_social_media
        { samplePost with
            status := PostStatus.PUBLISHED
            platform_post_id := some "orig"
            platform_url := some "origurl"
            published_at := some 10 }
        (AdapterOutcome.failure "dup fails") 0 3 999).post.status = PostStatus.FAILED := by
  refine ⟨rfl, rfl, rfl⟩

/-- C6: in a run where the submission of every due entry succeeds, the
sweeper acts on exactly the entries with `scheduled_time ≤ now` and
`is_processed = false`: each such entry is submitted and then gets
`is_processed = true` and `processed_at = now`; entries already processed or
not yet due are returned unchanged; and the run returns the number of
entries submitted, i.e. the number of due entries. -/
theorem sweeper_processes_exactly_due_entries
    (schedules : List SocialMediaSchedule) (outcome : Nat → Option String) (now : Int)
    (hok : ∀ s ∈ schedules, scheduleDue now s → outcome s.id = none) :
    (process_scheduled_posts schedules outcome now).1
      = schedules.map (fun s =>
          if scheduleDue now s then
            { s with is_processed := true, processed_at := some now }
          else s) ∧
    (process_scheduled_posts schedules outcome now).2
      = (schedules.filter (scheduleDue now)).length := by
  induction schedules with
  | nil => simp [process_scheduled_posts]
  | cons s rest ih =>
      have hs : scheduleDue now s → outcome s.id = none :=
        fun hd => hok s (List.mem_cons_self s rest) hd
      have hrest : ∀ t ∈ rest, scheduleDue now t → outcome t.id = none :=
        fun t ht hd => hok t (List.mem_cons_of_mem s ht) hd
      obtain ⟨ih1, ih2⟩ := ih hrest
      by_cases hd : scheduleDue now s
      · simp [process_scheduled_posts, hd, hs hd, processScheduleStep, ih1, ih2,
          List.filter_cons, Nat.add_comm]
      · simp [process_scheduled_posts, hd, ih1, ih2, List.filter_cons]

/-- C6 witness: a three-entry table (one due, one already processed, one in
the future) with all submissions succeeding: the run returns 1. -/
theorem sweeper_processes_exactly_due_entries_witness :
    (∀ s ∈ [dueSchedule, processedSchedule, futureSchedule],
        scheduleDue 1000 s → (fun _ : Nat => (none : Option String)) s.id = none) ∧
    (process_scheduled_posts [dueSchedule, processedSchedule, futureSchedule]
        (fun _ => none) 1000).2 = 1 := by
  have h := sweeper_processes_exactly_due_entries
    [dueSchedule, processedSchedule, futureSchedule] (fun _ => none) 1000
    (fun s _ _ => rfl)
  refine ⟨fun s _ _ => rfl, ?_⟩
  rw [h.2]
  decide

/-- C7: when the sweeper's submission of a due entry fails with message `e`
and `retry_count < max_retries`, the entry's `retry_count` is incremented
and `next_retry` is set `5 * retry_count` minutes (`300 * (retry_count + 1)`
seconds, with the incremented counter) after `now`, contributing 0 to the
count; when its retries are exhausted, the entry is flagged processed with
the error message, its bound post is marked `FAILED` with message
`"Max retries exceeded: " ++ e`, and — because every later sweep selects
only unprocessed entries — a processed entry is never acted on again. -/
theorem schedule_retry_policy
    (s : SocialMediaSchedule) (e : String) (now : Int)
    (outcome2 : Nat → Option String) (now2 : Int) :
    (s.retry_count < s.max_retries →
      processScheduleStep now s (some e)
        = ({ s with
              retry_count := s.retry_count + 1
              next_retry := some (now + 300 * (s.retry_count + 1)) }, 0)) ∧
    (¬ s.retry_count < s.max_retries →
      (processScheduleStep now s (some e)).1.is_processed = true ∧
      (processScheduleStep now s (some e)).1.processed_at = some now ∧
      (processScheduleStep now s (some e)).1.error_message = e ∧
      (processScheduleStep now s (some e)).1.post.status = PostStatus.FAILED ∧
      (processScheduleStep now s (some e)).1.post.error_message
        = "Max retries exceeded: " ++ e ∧
      (processScheduleStep now s (some e)).2 = 0) ∧
    (∀ t : SocialMediaSchedule, t.is_processed = true →
      process_scheduled_posts [t] outcome2 now2 = ([t], 0)) := by
  refine ⟨?_, ?_, ?_⟩
  · intro h
    simp [processScheduleStep, h]
  · intro h
    refine ⟨?_, ?_, ?_, ?_, ?_, ?_⟩ <;> simp [processScheduleStep, h]
  · intro t ht
    simp [process_scheduled_posts, scheduleDue, ht]

/-- C7 witness: the theorem applied to a concrete entry with one retry left
and to a concrete exhausted entry. -/
theorem schedule_retry_policy_witness :
    dueSchedule.retry_count < dueSchedule.max_retries ∧
    processScheduleStep 1000 dueSchedule (some "down")
      = ({ dueSchedule with
            retry_count := dueSchedule.retry_count + 1
            next_retry := some (1000 + 300 * (dueSchedule.retry_count + 1)) }, 0) ∧
    ¬ exhaustedSchedule.retry_count < exhaustedSchedule.max_retries ∧
    (processScheduleStep 1000 exhaustedSchedule (some "down")).1.post.status
      = PostStatus.FAILED := by
  refine ⟨by decide, ?_, by decide, ?_⟩
  · exact (schedule_retry_policy dueSchedule "down" 1000 (fun _ => none) 0).1 (by decide)
  · exact ((schedule_retry_policy exhaustedSchedule "down" 1000 (fun _ => none) 0).2.1
      (by decide)).2.2.2.1

/-- C8 counterexample: the exact running-average formula fails on the code's
special case for a stored average of 0.  Starting from a fresh agent, one
unsuccessful interaction leaves `total_interactions = 1` and average 0; a
successful interaction with sample 4 then sets the average to 4, while the
claimed formula `(oldAvg * (n - 1) + sample) / n` with `n = 2` gives 2. -/
theorem average_formula_counterexample :
    record_interaction
        { total_interactions := 0, average_response_time := 0,
          success_rate := 0, last_active := 0 } [] 0 false 0
      = ({ total_interactions := 1, average_response_time := 0,
           success_rate := 0, last_active := 0 },
         [{ response_time := 0, is_successful := false, created_at := 0 }]) ∧
    (record_interaction
        { total_interactions := 1, average_response_time := 0,
          success_rate := 0, last_active := 0 }
        [{ response_time := 0, is_successful := false, created_at := 0 }]
        4 true 9).1.average_response_time = 4 ∧
    ((0 : Rat) * ((2 : Rat) - 1) + 4) / 2 = 2 ∧
    (4 : Rat) ≠ 2 := by
  refine ⟨rfl, ?_, by norm_num, by norm_num⟩
  simp [record_interaction]

/-- C8 amended: every recorded interaction increments the agent's
interaction counter; on a successful interaction the running average
follows `newAvg = (oldAvg * (n - 1) + sample) / n` (with `n` the new total)
whenever the stored average is nonzero, but is set directly to the sample
when the stored average is 0; the success rate equals
`successes / total * 100` over the stored interactions including the new
one — with 1 success out of 2 it is exactly 50 — and the Twitter engagement
example (impressions 1000, likes 50, retweets 10, replies 5, quotes 3)
evaluates to exactly 6.8 (in exact rational arithmetic; the Python float
computation is within one ulp of it). -/
theorem metrics_formulas_amended
    (agent : AIAgent) (hist : List AIInteraction) (rt : Rat) (ok : Bool) (now : Int) :
    (record_interaction agent hist rt ok now).1.total_interactions
      = agent.total_interactions + 1 ∧
    (agent.average_response_time = 0 →
      (record_interaction agent hist rt true now).1.average_response_time = rt) ∧
    (agent.average_response_time ≠ 0 →
      (record_interaction agent hist rt true now).1.average_response_time
        = (agent.average_response_time * (((agent.total_interactions : Rat) + 1) - 1) + rt)
            / ((agent.total_interactions : Rat) + 1)) ∧
    (record_interaction agent hist rt true now).1.success_rate
      = ((((hist.filter (fun i => i.is_successful)).length + 1 : Nat) : Rat)
          / ((agent.total_interactions : Rat) + 1)) * 100 ∧
    (record_interaction
        { total_interactions := 1, average_response_time := 3,
          success_rate := 0, last_active := 0 }
        [{ response_time := 3, is_successful := false, created_at := 0 }]
        4 true 9).1.success_rate = 50 ∧
    engagement_rate twitterMetricsPost = 6.8 := by
  refine ⟨?_, ?_, ?_, ?_, ?_, ?_⟩
  · cases ok <;> simp [record_interaction]
  · intro h
    simp [record_interaction, h]
  · intro h
    simp [record_interaction, h]
  · simp [record_interaction, List.filter_append]
  · simp [record_interaction]
    norm_num
  · simp [engagement_rate, twitterMetricsPost, samplePost, metricsGet, List.lookup]
    norm_num

/-- C8 amended witness: the theorem applied to an agent with nonzero stored
average (2 interactions so far, average 5), recording a successful sample 11:
the new average is `(5 * (3 - 1) + 11) / 3 = 7`. -/
theorem metrics_formulas_amended_witness :
    ({ total_interactions := 2, average_response_time := 5,
       success_rate := 100, last_active := 0 } : AIAgent).average_response_time ≠ 0 ∧
    (record_interaction
        { total_interactions := 2, average_response_time := 5,
          success_rate := 100, last_active := 0 }
        [{ response_time := 4, is_successful := true, created_at := 0 },
         { response_time := 6, is_successful := true, created_at := 1 }]
        11 true 9).1.average_response_time
      = ((5 : Rat) * ((((2 : Nat) : Rat) + 1) - 1) + 11) / (((2 : Nat) : Rat) + 1) := by
  refine ⟨by norm_num, ?_⟩
  exact (metrics_formulas_amended
    { total_interactions := 2, average_response_time := 5,
      success_rate := 100, last_active := 0 }
    [{ response_time := 4, is_successful := true, created_at := 0 },
     { response_time := 6, is_successful := true, created_at := 1 }]
    11 true 9).2.2.1 (by norm_num)

/-- Characterization of the schedule-retention deletion predicate as a
proposition. -/
theorem processedScheduleExpired_iff (now : Int) (s : SocialMediaSchedule) :
    processedScheduleExpired now s = true ↔
      s.is_processed = true ∧ ∃ t, s.processed_at = some t ∧ t < now - 7 * 86400 := by
  rcases hat : s.processed_at with _ | t
  · simp [processedScheduleExpired, hat]
  · simp [processedScheduleExpired, hat]

/-- Negated form of `processedScheduleExpired_iff`. -/
theorem processedScheduleExpired_eq_false_iff (now : Int) (s : SocialMediaSchedule) :
    processedScheduleExpired now s = false ↔
      ¬(s.is_processed = true ∧ ∃ t, s.processed_at = some t ∧ t < now - 7 * 86400) := by
  rw [← processedScheduleExpired_iff now s]
  cases processedScheduleExpired now s <;> simp

/-- C9: the retention sweepers keep exactly the records that do not meet
their deletion predicate — a post survives `cleanup_failed_posts` iff it is
not (`FAILED` and created more than 30 days ago), a schedule survives iff it
is not (processed with `processed_at` more than 7 days ago), an interaction
survives `cleanup_ai_interactions` iff it is not created more than 90 days
ago — the reported counts equal the numbers of records removed
(removed + kept = total), and at the 90-day boundary an interaction aged
89 days or exactly 90 days is kept while one aged 91 days is removed. -/
theorem retention_deletes_strictly_older
    (posts : List SocialMediaPost) (schedules : List SocialMediaSchedule)
    (inters : List AIInteraction) (now : Int) :
    (∀ p : SocialMediaPost,
      p ∈ (cleanup_failed_posts posts schedules now).1 ↔
        p ∈ posts ∧ ¬(p.status = PostStatus.FAILED ∧ p.created_at < now - 30 * 86400)) ∧
    (∀ s : SocialMediaSchedule,
      s ∈ (cleanup_failed_posts posts schedules now).2.1 ↔
        s ∈ schedules ∧
          ¬(s.is_processed = true ∧ ∃ t, s.processed_at = some t ∧ t < now - 7 * 86400)) ∧
    (∀ i : AIInteraction,
      i ∈ (cleanup_ai_interactions inters now).1 ↔
        i ∈ inters ∧ ¬(i.created_at < now - 90 * 86400)) ∧
    (cleanup_failed_posts posts schedules now).2.2.1
        + (cleanup_failed_posts posts schedules now).1.length = posts.length ∧
    (cleanup_failed_posts posts schedules now).2.2.2
        + (cleanup_failed_posts posts schedules now).2.1.length = schedules.length ∧
    (cleanup_ai_interactions inters now).2
        + (cleanup_ai_interactions inters now).1.length = inters.length ∧
    cleanup_ai_interactions
        [{ response_time := 0, is_successful := true, created_at := 10000000 - 89 * 86400 },
         { response_time := 0, is_successful := true, created_at := 10000000 - 91 * 86400 },
         { response_time := 0, is_successful := true, created_at := 10000000 - 90 * 86400 }]
        10000000
      = ([{ response_time := 0, is_successful := true, created_at := 10000000 - 89 * 86400 },
          { response_time := 0, is_successful := true, created_at := 10000000 - 90 * 86400 }],
         1) := by
  refine ⟨?_, ?_, ?_, ?_, ?_, ?_, ?_⟩
  · intro p
    simp [cleanup_failed_posts, List.mem_filter, failedPostExpired, not_and]
    tauto
  · intro s
    simp [cleanup_failed_posts, List.mem_filter, Bool.not_eq_true',
      processedScheduleExpired_eq_false_iff]
  · intro i
    simp [cleanup_ai_interactions, List.mem_filter, interactionExpired]
  · exact (List.length_eq_length_filter_add (failedPostExpired now)).symm
  · exact (List.length_eq_length_filter_add (processedScheduleExpired now)).symm
  · exact (List.length_eq_length_filter_add (interactionExpired now)).symm
  · decide

/-- C10: the `engagement_rate` property is total and never divides by zero:
it returns 0 when the metrics dict is empty, when it has no `"impressions"`
key, and when `impressions` is 0. -/
theorem engagement_rate_total_zero_cases (p : SocialMediaPost) :
    (p.metrics = [] → engagement_rate p = 0) ∧
    (p.metrics.lookup "impressions" = none → engagement_rate p = 0) ∧
    (metricsGet p.metrics "impressions" = 0 → engagement_rate p = 0) := by
  refine ⟨?_, ?_, ?_⟩
  · intro h
    simp [engagement_rate, h]
  · intro h
    simp [engagement_rate, h]
  · intro h
    unfold engagement_rate
    split
    · rfl
    · simp [h]

/-- C10 witness: the theorem applied to a post with empty metrics, one
lacking the impressions key, and one with impressions 0. -/
theorem engagement_rate_total_zero_cases_witness :
    samplePost.metrics = [] ∧
    engagement_rate samplePost = 0 ∧
    engagement_rate { samplePost with metrics := [("likes", 5)] } = 0 ∧
    engagement_rate { samplePost with metrics := [("impressions", 0), ("likes", 5)] } = 0 := by
  refine ⟨rfl, ?_, ?_, ?_⟩
  · exact (engagement_rate_total_zero_cases samplePost).1 rfl
  · exact (engagement_rate_total_zero_cases
      { samplePost with metrics := [("likes", 5)] }).2.1 rfl
  · exact (engagement_rate_total_zero_cases
      { samplePost with metrics := [("impressions", 0), ("likes", 5)] }).2.2 rfl

end AILaunchPad
